import Mathlib

/-!
Shallow embedding of the habit-tracking API core: `src/apps/habits/serializers.py`
(HabitSerializer, HabitEntrySerializer) and `src/apps/habits/views.py`
(HabitViewSet, HabitEntryViewSet).

Modelling conventions:
* users are identified by their id (`Nat`); `request.user` becomes a `request_user : Nat`
  argument threaded to the functions that read it;
* timestamps are `Nat` (only null-ness and freshness matter to the code);
* calendar dates are `Nat` ordinals: the framework parses `start_date`/`end_date`/`date`
  parameters into dates before the ORM compares them, so those parameters arrive here
  already parsed, while `habit_id` stays a raw string because the view itself calls
  `int(habit_id)` on it;
* a Django queryset over a table becomes a `List` of rows filtered step by step;
  `order_by` becomes `List.insertionSort` with the corresponding relation;
* `raise serializers.ValidationError(msg)` becomes `Except.error msg`.
-/

/-- Modelled from the spec: the habit type enum of the Habit model (models.py is not
under src/); §3 gives exactly two values, SINGULAR and TIMED, referenced by the
serializer code as `Habit.HabitType.SINGULAR` / `Habit.HabitType.TIMED`. -/
inductive HabitType where
  | SINGULAR
  | TIMED
deriving DecidableEq, Repr

/-- Modelled from the spec: the Habit model row (models.py is not under src/), with the
attribute list of §3: id, owner (`user`), name, description, type, archived_at
(nullable timestamp, null = active), color, goal_value, goal_unit. Server-managed
created_at/updated_at timestamps are omitted: no claim reads them. -/
structure Habit where
  id : Nat
  user : Nat
  name : String
  description : String
  type : HabitType
  archived_at : Option Nat
  color : String
  goal_value : Option Int
  goal_unit : String
deriving DecidableEq, Repr

/-- Modelled from the spec: the HabitEntry model row (models.py is not under src/), §3:
id, owner (`user`), habit (reference by id), entry_date (calendar date), value, notes. -/
structure HabitEntry where
  id : Nat
  user : Nat
  habit : Nat
  entry_date : Nat
  value : Int
  notes : String
deriving DecidableEq, Repr

/-! Error messages raised by the serializers, verbatim from serializers.py. -/

def name_required_msg : String := "Name is required."

def name_too_short_msg : String := "Name must be at least 3 characters long."

def forbidden_msg : String := "You can only create entries for your own habits."

def invalid_state_msg : String := "Cannot create entries for archived habits."

def singular_value_msg : String := "Singular habits can only have a value of 1."

def timed_value_msg : String := "Timed habits must have a positive value."

/-- The spec's error taxonomy (spec §7): `forbidden_msg` is the ownership failure
(`Forbidden`), `invalid_state_msg` the archived-habit failure (`InvalidState`), and
every other serializer message is a field-level `ValidationFailed`. -/
inductive ErrKind where
  | Forbidden
  | InvalidState
  | ValidationFailed
deriving DecidableEq, Repr

/-- Classify a raised serializer message into the spec §7 taxonomy. -/
def errKindOf (msg : String) : ErrKind :=
  if msg = forbidden_msg then ErrKind.Forbidden
  else if msg = invalid_state_msg then ErrKind.InvalidState
  else ErrKind.ValidationFailed

/-- Whether an `Except` result is a success. -/
def exceptOk {ε α : Type} : Except ε α → Bool
  | Except.ok _ => true
  | Except.error _ => false

/-- Embeds `HabitSerializer.validate_name` (serializers.py lines 29-36): rejects a falsy
(empty) name, then a name shorter than 3 characters, and returns the name otherwise. -/
def validate_name (value : String) : Except String String :=
  if value = "" then Except.error name_required_msg
  else if value.length < 3 then Except.error name_too_short_msg
  else Except.ok value

/-- Embeds `HabitEntrySerializer.validate_habit` (serializers.py lines 59-69): a field-level
validator on the `habit` field. Raises (in this order) if the referenced habit is not
owned by the requesting user, then if it is archived; otherwise returns the habit. -/
def validate_habit (request_user : Nat) (habit_instance : Habit) : Except String Habit :=
  if habit_instance.user ≠ request_user then Except.error forbidden_msg
  else if habit_instance.archived_at ≠ none then Except.error invalid_state_msg
  else Except.ok habit_instance

/-- The cross-field attrs dict the entry serializer validates: each key is present
(`some`) or absent. `habit` holds the resolved Habit instance (DRF's
PrimaryKeyRelatedField resolves the id before validation). The read-only fields
(`user`, `habit_name`, timestamps) never appear in validated attrs. -/
structure EntryAttrs where
  habit : Option Habit
  entry_date : Option Nat
  value : Option Int
  notes : Option String
deriving DecidableEq, Repr

/-- The persisted instance visible to `self.instance` during an update, with its
foreign key resolved: `instance.habit` is the loaded Habit row. -/
structure EntryInstance where
  habit : Habit
  entry_date : Nat
  value : Int
  notes : String
deriving DecidableEq, Repr

/-- Embeds `HabitEntrySerializer.validate` (serializers.py lines 71-90): the object-level
cross-field check. `attrs.get("habit", getattr(self.instance, "habit", None))` is the
payload habit if present, else the instance's habit if updating, else `None`; likewise
for `value`. A Habit instance is always truthy and the value guard is `is not None`, so
the type/value rule runs exactly when both effective fields are present. -/
def validate (inst : Option EntryInstance) (attrs : EntryAttrs) : Except String EntryAttrs :=
  let habit : Option Habit :=
    match attrs.habit with
    | some h => some h
    | none => inst.map (fun i => i.habit)
  let value : Option Int :=
    match attrs.value with
    | some v => some v
    | none => inst.map (fun i => i.value)
  match habit, value with
  | some h, some v =>
      if h.type = HabitType.SINGULAR ∧ v ≠ 1 then Except.error singular_value_msg
      else if h.type = HabitType.TIMED ∧ v ≤ 0 then Except.error timed_value_msg
      else Except.ok attrs
  | _, _ => Except.ok attrs

/-- A raw entry-creation payload as the client sends it. `user` may be supplied by the
client but the serializer declares it read-only, so deserialization drops it. `habit`
arrives as an id; here it is the resolved Habit row the id points to. -/
structure EntryPayload where
  user : Option Nat
  habit : Habit
  entry_date : Nat
  value : Int
  notes : Option String
deriving DecidableEq, Repr

/-- DRF `run_validation` for an entry create: `to_internal_value` drops the read-only
`user` field and runs the field-level `validate_habit`; if that raises, the
object-level `validate` is never reached; otherwise `validate` runs on the attrs
(no instance on create). -/
def run_validation_create (request_user : Nat) (p : EntryPayload) : Except String EntryAttrs :=
  match validate_habit request_user p.habit with
  | Except.error e => Except.error e
  | Except.ok h =>
      validate none { habit := some h, entry_date := some p.entry_date,
                      value := some p.value, notes := p.notes }

/-- Embeds `HabitEntrySerializer.create` (serializers.py lines 92-94) composed with
`run_validation`: on success `validated_data["user"] = self.context["request"].user`
overwrites the owner before the row is inserted, so the stored owner is the caller. -/
def serializer_create (request_user : Nat) (next_id : Nat) (p : EntryPayload) :
    Except String HabitEntry :=
  match run_validation_create request_user p with
  | Except.error e => Except.error e
  | Except.ok attrs =>
      Except.ok
        { id := next_id,
          user := request_user,
          habit := (attrs.habit.getD p.habit).id,
          entry_date := attrs.entry_date.getD p.entry_date,
          value := attrs.value.getD p.value,
          notes := attrs.notes.getD "" }

/-- Default `ModelSerializer.update` on an entry: each field present in validated
attrs replaces the instance field; read-only fields (`user` among them) are never in
validated attrs, so the stored owner is untouched. -/
def serializer_update (inst : HabitEntry) (attrs : EntryAttrs) : HabitEntry :=
  { inst with
    habit := match attrs.habit with
             | some h => h.id
             | none => inst.habit,
    entry_date := attrs.entry_date.getD inst.entry_date,
    value := attrs.value.getD inst.value,
    notes := attrs.notes.getD inst.notes }

/-- The viewset action being dispatched (`self.action`); `patch` stands for the
partial-update (PATCH) action. -/
inductive ViewAction where
  | list
  | retrieve
  | create
  | update
  | patch
  | destroy
  | archive
  | unarchive
deriving DecidableEq, Repr

/-- Model of Python str.lower() (ASCII case folding applied per character); written
over the character list so it evaluates by structural recursion. -/
def lowerString (s : String) : String :=
  String.mk (s.data.map Char.toLower)

/-- Relation for `order_by("name")` ordering on habits. -/
def nameLe (a b : Habit) : Prop := a.name ≤ b.name

instance : DecidableRel nameLe :=
  fun a b => inferInstanceAs (Decidable (a.name ≤ b.name))

/-- Embeds `HabitViewSet.get_queryset` (views.py lines 69-83): scope to the caller's rows;
only for the `list` action, apply the archived filter: absent parameter keeps active
rows, `true`/`1` (lower-cased) keeps archived rows, `false`/`0` keeps active rows,
and any other value leaves the queryset unfiltered; finally `order_by("name")`. -/
def HabitViewSet_get_queryset (db : List Habit) (request_user : Nat) (act : ViewAction)
    (archived_param : Option String) : List Habit :=
  let queryset := db.filter (fun h => h.user == request_user)
  let queryset :=
    if act = ViewAction.list then
      match archived_param with
      | some p =>
          if lowerString p = "true" ∨ lowerString p = "1" then
            queryset.filter (fun h => h.archived_at.isSome)
          else if lowerString p = "false" ∨ lowerString p = "0" then
            queryset.filter (fun h => h.archived_at.isNone)
          else queryset
      | none => queryset.filter (fun h => h.archived_at.isNone)
    else queryset
  List.insertionSort nameLe queryset

/-- Embeds `HabitViewSet.archive` (views.py lines 156-170): if `archived_at` is null, set it
to the current time and save; either way the response serializes the habit object in
its current state, which this function returns. -/
def HabitViewSet_archive (habit : Habit) (now : Nat) : Habit :=
  if habit.archived_at = none then { habit with archived_at := some now } else habit

/-- Embeds `HabitViewSet.unarchive` (views.py lines 178-192): if `archived_at` is non-null,
set it back to null and save; either way the response serializes the habit object in
its current state, which this function returns. -/
def HabitViewSet_unarchive (habit : Habit) : Habit :=
  if habit.archived_at ≠ none then { habit with archived_at := none } else habit

/-- Model of Python int() applied to a query-parameter string: an optional sign
followed by at least one decimal digit; anything else raises ValueError, here `none`. -/
def parseDigits (cs : List Char) : Option Nat :=
  if cs = [] then none
  else if cs.all (fun c => c.isDigit) then
    some (cs.foldl (fun acc c => acc * 10 + (c.toNat - 48)) 0)
  else none

/-- Model of Python int() on a string: optional `-` or `+` sign, then digits. -/
def pyInt? (s : String) : Option Int :=
  match s.data with
  | [] => none
  | c :: rest =>
      if c = Char.ofNat 45 then (parseDigits rest).map (fun n => -(n : Int))
      else if c = Char.ofNat 43 then (parseDigits rest).map (fun n => (n : Int))
      else (parseDigits (c :: rest)).map (fun n => (n : Int))

/-- Relation for `order_by("-entry_date")` ordering on entries (descending date). -/
def dateGe (a b : HabitEntry) : Prop := b.entry_date ≤ a.entry_date

instance : DecidableRel dateGe :=
  fun a b => inferInstanceAs (Decidable (b.entry_date ≤ a.entry_date))

instance : IsTotal HabitEntry dateGe :=
  ⟨fun a b => (Nat.le_total b.entry_date a.entry_date).imp id id⟩

instance : IsTrans HabitEntry dateGe :=
  ⟨fun _ _ _ hab hbc => Nat.le_trans hbc hab⟩

/-- Embeds `HabitEntryViewSet.get_queryset` (views.py lines 270-301): scope to the caller's
rows; `if habit_id:` skips a missing or empty parameter, otherwise `int(habit_id)` is
attempted and a conversion failure is swallowed (`except ... pass`), leaving that
clause unapplied; `start_date`/`end_date`/`date` each add their comparison when
supplied; finally `order_by("-entry_date")`. -/
def HabitEntryViewSet_get_queryset (db : List HabitEntry) (request_user : Nat)
    (habit_id : Option String) (start_date : Option Nat) (end_date : Option Nat)
    (specific_date : Option Nat) : List HabitEntry :=
  let queryset := db.filter (fun e => e.user == request_user)
  let queryset :=
    match habit_id with
    | some s =>
        if s = "" then queryset
        else
          match pyInt? s with
          | some n => queryset.filter (fun e => (e.habit : Int) == n)
          | none => queryset
    | none => queryset
  let queryset :=
    match start_date with
    | some d => queryset.filter (fun e => decide (d ≤ e.entry_date))
    | none => queryset
  let queryset :=
    match end_date with
    | some d => queryset.filter (fun e => decide (e.entry_date ≤ d))
    | none => queryset
  let queryset :=
    match specific_date with
    | some d => queryset.filter (fun e => e.entry_date == d)
    | none => queryset
  List.insertionSort dateGe queryset

/-! Concrete fixtures used by witnesses and counterexamples. -/

/-- An active (archived_at null) habit owned by user 7. -/
def activeHabit : Habit :=
  { id := 1, user := 7, name := "Run daily", description := "", type := HabitType.SINGULAR,
    archived_at := none, color := "", goal_value := none, goal_unit := "" }

/-- An archived habit owned by user 7. -/
def archivedHabit : Habit :=
  { id := 4, user := 7, name := "Read books", description := "", type := HabitType.TIMED,
    archived_at := some 3, color := "", goal_value := none, goal_unit := "" }

/-- An active habit owned by a different user (9). -/
def foreignHabit : Habit :=
  { id := 3, user := 9, name := "Stretch", description := "", type := HabitType.SINGULAR,
    archived_at := none, color := "", goal_value := none, goal_unit := "" }

/-- A valid entry-creation payload against `activeHabit`. -/
def okPayload : EntryPayload :=
  { user := none, habit := activeHabit, entry_date := 10, value := 1, notes := none }

/-- A payload referencing another user's habit. -/
def forbiddenPayload : EntryPayload :=
  { user := none, habit := foreignHabit, entry_date := 10, value := 1, notes := none }

/-- A payload referencing an archived habit. -/
def archivedPayload : EntryPayload :=
  { user := none, habit := archivedHabit, entry_date := 10, value := 5, notes := none }

/-- A payload with value 2 against a SINGULAR habit. -/
def badValuePayload : EntryPayload :=
  { user := none, habit := activeHabit, entry_date := 10, value := 2, notes := none }

/-- The row `serializer_create 7 1 okPayload` inserts. -/
def createdEntry : HabitEntry :=
  { id := 1, user := 7, habit := 1, entry_date := 10, value := 1, notes := "" }

/-- An attrs dict with every key absent (an empty PATCH body). -/
def emptyAttrs : EntryAttrs :=
  { habit := none, entry_date := none, value := none, notes := none }

/-- A persisted entry instance whose habit is `activeHabit`. -/
def sampleInstance : EntryInstance :=
  { habit := activeHabit, entry_date := 10, value := 1, notes := "" }

/-- A persisted entry row of user 7 dated 15. -/
def entry1 : HabitEntry :=
  { id := 5, user := 7, habit := 1, entry_date := 15, value := 1, notes := "" }

/-! Helper lemmas shared by several claims. -/

/-- Evaluation of the whole create-time validation pipeline as one if-chain, in the
order the serializer runs the checks. -/
theorem run_validation_create_eval (u : Nat) (p : EntryPayload) :
    run_validation_create u p =
      if p.habit.user ≠ u then Except.error forbidden_msg
      else if p.habit.archived_at ≠ none then Except.error invalid_state_msg
      else if p.habit.type = HabitType.SINGULAR ∧ p.value ≠ 1 then
        Except.error singular_value_msg
      else if p.habit.type = HabitType.TIMED ∧ p.value ≤ 0 then
        Except.error timed_value_msg
      else Except.ok { habit := some p.habit, entry_date := some p.entry_date,
                       value := some p.value, notes := p.notes } := by
  unfold run_validation_create validate_habit
  by_cases h1 : p.habit.user ≠ u
  · simp only [if_pos h1]
  · simp only [if_neg h1]
    by_cases h2 : p.habit.archived_at ≠ none
    · simp only [if_pos h2]
    · simp only [if_neg h2]
      rfl

/-- Evaluation of the type/value rule if-chain as a success criterion. -/
theorem value_rule_eval (h : Habit) (v : Int) (attrs : EntryAttrs) :
    (if h.type = HabitType.SINGULAR ∧ v ≠ 1 then
       (Except.error singular_value_msg : Except String EntryAttrs)
     else if h.type = HabitType.TIMED ∧ v ≤ 0 then Except.error timed_value_msg
     else Except.ok attrs) = Except.ok attrs ↔
      ((h.type = HabitType.SINGULAR → v = 1) ∧ (h.type = HabitType.TIMED → 0 < v)) := by
  cases hty : h.type with
  | SINGULAR => by_cases hv : v = 1 <;> simp [hv]
  | TIMED =>
      by_cases hv : v ≤ 0
      · simp [hv]
      · simp [hv]
        omega

/-- Evaluation of the habit list queryset when the archived parameter is absent. -/
theorem habit_list_queryset_none_eval (db : List Habit) (u : Nat) :
    HabitViewSet_get_queryset db u ViewAction.list none =
      List.insertionSort nameLe
        ((db.filter (fun h => h.user == u)).filter (fun h => h.archived_at.isNone)) := rfl

/-- Evaluation of the habit list queryset when the archived parameter is supplied. -/
theorem habit_list_queryset_some_eval (db : List Habit) (u : Nat) (p : String) :
    HabitViewSet_get_queryset db u ViewAction.list (some p) =
      List.insertionSort nameLe
        (if lowerString p = "true" ∨ lowerString p = "1" then
           (db.filter (fun h => h.user == u)).filter (fun h => h.archived_at.isSome)
         else if lowerString p = "false" ∨ lowerString p = "0" then
           (db.filter (fun h => h.user == u)).filter (fun h => h.archived_at.isNone)
         else db.filter (fun h => h.user == u)) := rfl

/-! Claim theorems. -/

/-- C5: for a habit reachable by its owner, archive on an active habit sets
archived_at to the current timestamp; archive on an already-archived habit leaves it
unchanged (so a second consecutive archive changes nothing); unarchive always resets
archived_at to null, so archive followed by unarchive restores an originally active
habit exactly; both actions return the habit in its current state (the functions'
return value is that state). -/
theorem archive_unarchive_idempotent (h : Habit) (t t2 : Nat) :
    (h.archived_at = none →
        HabitViewSet_archive h t = { h with archived_at := some t })
    ∧ (h.archived_at ≠ none → HabitViewSet_archive h t = h)
    ∧ (HabitViewSet_unarchive h).archived_at = none
    ∧ (h.archived_at = none →
        HabitViewSet_unarchive (HabitViewSet_archive h t) = h)
    ∧ HabitViewSet_archive (HabitViewSet_archive h t) t2 = HabitViewSet_archive h t := by
  obtain ⟨i, u, nm, ds, ty, arch, c, gv, gu⟩ := h
  cases arch <;> simp [HabitViewSet_archive, HabitViewSet_unarchive]

/-- Witness for C5 at a concrete active habit and timestamp. -/
theorem archive_unarchive_idempotent_witness :
    HabitViewSet_archive activeHabit 5 = { activeHabit with archived_at := some 5 }
    ∧ HabitViewSet_unarchive (HabitViewSet_archive activeHabit 5) = activeHabit :=
  ⟨(archive_unarchive_idempotent activeHabit 5 0).1 rfl,
   (archive_unarchive_idempotent activeHabit 5 0).2.2.2.1 rfl⟩

/-- C6: habit-name validation succeeds exactly when the name has length at least 3
(empty names and names of length 1 or 2 are rejected), and every rejection is a
field-level ValidationFailed in the spec taxonomy. -/
theorem habit_name_validation (s : String) :
    (exceptOk (validate_name s) = true ↔ 3 ≤ s.length)
    ∧ (∀ e, validate_name s = Except.error e →
        errKindOf e = ErrKind.ValidationFailed) := by
  constructor
  · by_cases h1 : s = ""
    · subst h1
      decide
    · by_cases h2 : s.length < 3
      · simp [validate_name, h1, h2, exceptOk]
      · simp [validate_name, h1, h2, exceptOk]
        omega
  · intro e he
    unfold validate_name at he
    by_cases h1 : s = ""
    · rw [if_pos h1] at he
      injection he with h3
      rw [← h3]
      decide
    · rw [if_neg h1] at he
      by_cases h2 : s.length < 3
      · rw [if_pos h2] at he
        injection he with h3
        rw [← h3]
        decide
      · rw [if_neg h2] at he
        exact Except.noConfusion he

/-- Witness for C6: the 2-character name "Ab" fails with a ValidationFailed message,
and the 3-character name "Run" passes. -/
theorem habit_name_validation_witness :
    errKindOf name_too_short_msg = ErrKind.ValidationFailed
    ∧ exceptOk (validate_name "Run") = true :=
  ⟨(habit_name_validation "Ab").2 name_too_short_msg rfl,
   (habit_name_validation "Run").1.mpr (by decide)⟩

/-- C2: with ownership and non-archived preconditions satisfied (and required fields
present, as every EntryPayload has them), entry creation succeeds iff value = 1 when
the habit type is SINGULAR, and iff value > 0 when the habit type is TIMED. -/
theorem entry_value_type_rule (u nid : Nat) (p : EntryPayload)
    (hown : p.habit.user = u) (hact : p.habit.archived_at = none) :
    (p.habit.type = HabitType.SINGULAR →
      (exceptOk (serializer_create u nid p) = true ↔ p.value = 1))
    ∧ (p.habit.type = HabitType.TIMED →
      (exceptOk (serializer_create u nid p) = true ↔ 0 < p.value)) := by
  have hrv := run_validation_create_eval u p
  rw [if_neg (by simp [hown]), if_neg (by simp [hact])] at hrv
  constructor
  · intro hty
    by_cases hv : p.value = 1
    · simp [serializer_create, hrv, hty, hv, exceptOk]
    · simp [serializer_create, hrv, hty, hv, exceptOk]
  · intro hty
    by_cases hv : p.value ≤ 0
    · simp [serializer_create, hrv, hty, hv, exceptOk]
    · simp [serializer_create, hrv, hty, hv, exceptOk]
      omega

/-- Witness for C2: value 1 against an owned active SINGULAR habit succeeds, and
value 2 against the same habit fails. -/
theorem entry_value_type_rule_witness :
    exceptOk (serializer_create 7 1 okPayload) = true
    ∧ exceptOk (serializer_create 7 1 badValuePayload) = false :=
  ⟨((entry_value_type_rule 7 1 okPayload rfl rfl).1 rfl).mpr rfl,
   by
    have h2 := (entry_value_type_rule 7 1 badValuePayload rfl rfl).1 rfl
    cases hb : exceptOk (serializer_create 7 1 badValuePayload) with
    | true => exact absurd (h2.mp hb) (by decide)
    | false => rfl⟩

/-- C3: the create-time checks run in the order ownership, archived-state, value rule,
each failure short-circuiting the rest: a foreign habit yields the Forbidden message
whatever the value or archived state; an owned archived habit yields the InvalidState
message whatever the value; with both earlier checks passing, any remaining failure is
a ValidationFailed message. The last two conjuncts pin the taxonomy of the first two
messages. -/
theorem entry_validation_order (u : Nat) (p : EntryPayload) :
    (p.habit.user ≠ u → run_validation_create u p = Except.error forbidden_msg)
    ∧ (p.habit.user = u → p.habit.archived_at ≠ none →
        run_validation_create u p = Except.error invalid_state_msg)
    ∧ (p.habit.user = u → p.habit.archived_at = none →
        ∀ e, run_validation_create u p = Except.error e →
          errKindOf e = ErrKind.ValidationFailed)
    ∧ errKindOf forbidden_msg = ErrKind.Forbidden
    ∧ errKindOf invalid_state_msg = ErrKind.InvalidState := by
  refine ⟨?_, ?_, ?_, by decide, by decide⟩
  · intro h1
    rw [run_validation_create_eval, if_pos h1]
  · intro h1 h2
    rw [run_validation_create_eval, if_neg (by simp [h1]), if_pos h2]
  · intro h1 h2 e he
    rw [run_validation_create_eval, if_neg (by simp [h1]), if_neg (by simp [h2])] at he
    split at he
    · injection he with h3
      rw [← h3]
      decide
    · split at he
      · injection he with h3
        rw [← h3]
        decide
      · exact Except.noConfusion he

/-- Witness for C3: a foreign habit fails Forbidden even with a bad value, an owned
archived habit fails InvalidState, and an owned active habit with a bad value fails
with a ValidationFailed message. -/
theorem entry_validation_order_witness :
    run_validation_create 7 forbiddenPayload = Except.error forbidden_msg
    ∧ run_validation_create 7 archivedPayload = Except.error invalid_state_msg
    ∧ errKindOf singular_value_msg = ErrKind.ValidationFailed :=
  ⟨(entry_validation_order 7 forbiddenPayload).1 (by decide),
   (entry_validation_order 7 archivedPayload).2.1 rfl (by decide),
   (entry_validation_order 7 badValuePayload).2.2.1 rfl rfl singular_value_msg rfl⟩

/-- C4: on a write against an existing instance (full or partial update), the
cross-field type/value check always runs, with any field absent from the payload
falling back to the persisted instance value: the object-level validation accepts the
attrs exactly when the effective habit's type rule holds of the effective value, where
effective means payload value if present, else the instance's stored value. -/
theorem entry_cross_field_fallback (inst : EntryInstance) (attrs : EntryAttrs) :
    validate (some inst) attrs = Except.ok attrs ↔
      (((attrs.habit.getD inst.habit).type = HabitType.SINGULAR →
          attrs.value.getD inst.value = 1)
       ∧ ((attrs.habit.getD inst.habit).type = HabitType.TIMED →
          0 < attrs.value.getD inst.value)) := by
  obtain ⟨oh, od, ov, nt⟩ := attrs
  cases oh <;> cases ov <;> exact value_rule_eval _ _ _

/-- Witness for C4: an empty PATCH body against a stored valid entry passes the check
using the persisted habit and value. -/
theorem entry_cross_field_fallback_witness :
    validate (some sampleInstance) emptyAttrs = Except.ok emptyAttrs :=
  (entry_cross_field_fallback sampleInstance emptyAttrs).mpr (by decide)

/-- C7: the owner stored on a created entry is the requesting user whatever owner the
payload carries (the read-only user field is dropped, then overwritten with the
caller), and an update never changes the stored owner. -/
theorem entry_owner_forced (u x nid : Nat) (p : EntryPayload) :
    serializer_create u nid { p with user := some x } = serializer_create u nid p
    ∧ (∀ e, serializer_create u nid p = Except.ok e → e.user = u)
    ∧ (∀ inst attrs, (serializer_update inst attrs).user = inst.user) := by
  refine ⟨rfl, ?_, fun inst attrs => rfl⟩
  intro e he
  cases hrv : run_validation_create u p with
  | error msg => simp [serializer_create, hrv] at he
  | ok attrs =>
      simp only [serializer_create, hrv] at he
      injection he with h3
      rw [← h3]

/-- Witness for C7: creating with a payload claiming user 99 stores user 7 when user 7
is the caller. -/
theorem entry_owner_forced_witness :
    serializer_create 7 1 { okPayload with user := some 99 } = serializer_create 7 1 okPayload
    ∧ createdEntry.user = 7
    ∧ (serializer_update entry1 emptyAttrs).user = entry1.user :=
  ⟨(entry_owner_forced 7 99 1 okPayload).1,
   (entry_owner_forced 7 99 1 okPayload).2.1 createdEntry rfl,
   (entry_owner_forced 7 99 1 okPayload).2.2 entry1 emptyAttrs⟩

/-- C1 counterexample: with the unrecognized value `maybe` for the archived
parameter, the list queryset of user 7 contains an archived habit, so the claim that
any other value falls back to the default (archived_at-null habits only) is false. -/
theorem habit_list_unrecognized_param_cex :
    HabitViewSet_get_queryset [archivedHabit] 7 ViewAction.list (some "maybe")
      = [archivedHabit]
    ∧ archivedHabit.archived_at ≠ none := by
  constructor
  · decide
  · decide

/-- C1 (amended): the archived parameter selects the habit list as follows: absent,
only archived_at-null habits of the caller; `true`/`1` after lower-casing, only
archived habits of the caller; `false`/`0` after lower-casing, only archived_at-null
habits of the caller; any other value applies no archived filter, so all of the
caller's habits, archived or not, are returned. -/
theorem habit_list_archived_filter (db : List Habit) (u : Nat) (p : String) (h : Habit) :
    (h ∈ HabitViewSet_get_queryset db u ViewAction.list none ↔
       (h ∈ db ∧ h.user = u) ∧ h.archived_at = none)
    ∧ (lowerString p = "true" ∨ lowerString p = "1" →
       (h ∈ HabitViewSet_get_queryset db u ViewAction.list (some p) ↔
          (h ∈ db ∧ h.user = u) ∧ h.archived_at ≠ none))
    ∧ (lowerString p = "false" ∨ lowerString p = "0" →
       (h ∈ HabitViewSet_get_queryset db u ViewAction.list (some p) ↔
          (h ∈ db ∧ h.user = u) ∧ h.archived_at = none))
    ∧ (lowerString p ≠ "true" → lowerString p ≠ "1" → lowerString p ≠ "false" → lowerString p ≠ "0" →
       (h ∈ HabitViewSet_get_queryset db u ViewAction.list (some p) ↔
          h ∈ db ∧ h.user = u)) := by
  refine ⟨?_, ?_, ?_, ?_⟩
  · rw [habit_list_queryset_none_eval]
    simp [List.mem_filter]
    tauto
  · intro hp
    rw [habit_list_queryset_some_eval, if_pos hp]
    simp [List.mem_filter, Option.isSome_iff_ne_none]
    tauto
  · intro hp
    rcases hp with hp | hp
    · rw [habit_list_queryset_some_eval, if_neg (by rw [hp]; decide), if_pos (Or.inl hp)]
      simp [List.mem_filter]
      tauto
    · rw [habit_list_queryset_some_eval, if_neg (by rw [hp]; decide), if_pos (Or.inr hp)]
      simp [List.mem_filter]
      tauto
  · intro h1 h2 h3 h4
    rw [habit_list_queryset_some_eval, if_neg (by simp [h1, h2]), if_neg (by simp [h3, h4])]
    simp [List.mem_filter]

/-- Witness for C1 (amended): `TRUE` lists an archived habit, an absent parameter
lists an active habit, and the unrecognized `maybe` still lists the archived habit. -/
theorem habit_list_archived_filter_witness :
    archivedHabit ∈ HabitViewSet_get_queryset [archivedHabit] 7 ViewAction.list (some "TRUE")
    ∧ activeHabit ∈ HabitViewSet_get_queryset [activeHabit] 7 ViewAction.list none
    ∧ archivedHabit ∈ HabitViewSet_get_queryset [archivedHabit] 7 ViewAction.list (some "maybe") :=
  ⟨((habit_list_archived_filter [archivedHabit] 7 "TRUE" archivedHabit).2.1
      (Or.inl (by decide))).mpr (by decide),
   (habit_list_archived_filter [activeHabit] 7 "x" activeHabit).1.mpr (by decide),
   ((habit_list_archived_filter [archivedHabit] 7 "maybe" archivedHabit).2.2.2
      (by decide) (by decide) (by decide) (by decide)).mpr (by decide)⟩

/-- C10: for every action other than list (retrieve, update, partial-update, delete,
archive, unarchive), the candidate queryset is exactly the caller's habits with no
archived filter, so an archived habit stays reachable by id. -/
theorem habit_detail_reaches_archived (db : List Habit) (u : Nat) (act : ViewAction)
    (p : Option String) (h : Habit) (hact : act ≠ ViewAction.list) :
    h ∈ HabitViewSet_get_queryset db u act p ↔ h ∈ db ∧ h.user = u := by
  simp [HabitViewSet_get_queryset, hact, List.mem_filter]

/-- Witness for C10: an archived habit is in the retrieve-action queryset of its
owner. -/
theorem habit_detail_reaches_archived_witness :
    archivedHabit ∈ HabitViewSet_get_queryset [archivedHabit] 7 ViewAction.retrieve none
    ∧ archivedHabit.archived_at ≠ none :=
  ⟨(habit_detail_reaches_archived [archivedHabit] 7 ViewAction.retrieve none archivedHabit
      (by decide)).mpr (by decide),
   by decide⟩

/-- C8: with both range parameters supplied (and no habit_id or date parameter), the
entry list is exactly the caller's entries with entry_date in the inclusive range,
sorted by entry_date descending; and in general each supplied date filter
(start_date as a lower bound, end_date as an upper bound, date as an exact match) is
AND-combined with the others and the owner scoping. -/
theorem entries_date_range_filter (db : List HabitEntry) (u a b : Nat)
    (sd ed dt : Option Nat) (e : HabitEntry) :
    (e ∈ HabitEntryViewSet_get_queryset db u none (some a) (some b) none ↔
       e ∈ db ∧ e.user = u ∧ a ≤ e.entry_date ∧ e.entry_date ≤ b)
    ∧ List.Sorted dateGe (HabitEntryViewSet_get_queryset db u none (some a) (some b) none)
    ∧ (e ∈ HabitEntryViewSet_get_queryset db u none sd ed dt ↔
       e ∈ db ∧ e.user = u
         ∧ (∀ x, sd = some x → x ≤ e.entry_date)
         ∧ (∀ x, ed = some x → e.entry_date ≤ x)
         ∧ (∀ x, dt = some x → e.entry_date = x)) := by
  refine ⟨?_, ?_, ?_⟩
  · simp [HabitEntryViewSet_get_queryset, List.mem_filter]
    tauto
  · exact List.sorted_insertionSort dateGe _
  · cases sd <;> cases ed <;> cases dt <;>
      simp [HabitEntryViewSet_get_queryset, List.mem_filter] <;>
      tauto

/-- Witness for C8: an entry dated 15 of user 7 is listed for the range 10..20. -/
theorem entries_date_range_filter_witness :
    entry1 ∈ HabitEntryViewSet_get_queryset [entry1] 7 none (some 10) (some 20) none :=
  (entries_date_range_filter [entry1] 7 10 20 none none none entry1).1.mpr (by decide)

/-- C9: a habit_id parameter that does not parse as an integer is silently ignored:
the queryset equals the one computed with no habit_id parameter at all (the date
filters and owner scoping still apply), and no error is produced (the function is
total). -/
theorem entries_nonnumeric_habit_id_ignored (db : List HabitEntry) (u : Nat) (s : String)
    (sd ed dt : Option Nat) (hs : pyInt? s = none) :
    HabitEntryViewSet_get_queryset db u (some s) sd ed dt =
      HabitEntryViewSet_get_queryset db u none sd ed dt := by
  by_cases hse : s = "" <;> simp [HabitEntryViewSet_get_queryset, hse, hs]

/-- Witness for C9: the non-numeric habit_id `abc` leaves the queryset unchanged. -/
theorem entries_nonnumeric_habit_id_ignored_witness :
    HabitEntryViewSet_get_queryset [entry1] 7 (some "abc") none none none =
      HabitEntryViewSet_get_queryset [entry1] 7 none none none none :=
  entries_nonnumeric_habit_id_ignored [entry1] 7 "abc" none none none (by decide)
